import Mathlib

/-!
Shallow embedding of the metriki-core timer (src/metriki-core/src/metrics/timer.rs)
and the global registry accessor (src/metriki-core/src/global.rs).

Time is modelled in nanoseconds: a Rust `Instant` becomes a `Nat` nanosecond
count, and a `Duration` obtained by subtracting instants becomes a `Nat`
nanosecond count as well.  Rust instant subtraction saturates at zero, which
matches truncated `Nat` subtraction.  `Duration::as_millis` divides the
nanosecond count by 1,000,000, and the `as u64` cast reduces modulo 2^64.

The `Meter` and `Histogram` types live in source files of this repository that
are not under src/, so they are modelled from the spec; the timer code itself
is embedded directly from timer.rs.
-/

/-- An instant of the monotonic clock, as a nanosecond count. -/
abbrev Instant := Nat

/-- Modelled from the spec: the Meter source file is not under src/.  Per the
spec, mark records one event at the given instant and the count is the exact,
never-decreasing lifetime total.  The model also keeps the list of instants at
which mark was called, so that which instant a mark used is observable.  The
three decaying rate estimates are carried as abstract rational values; no
claim depends on their EWMA evolution, so mark leaves them untouched in the
model. -/
structure Meter where
  count : Nat
  markTimes : List Instant
  m1_rate : ℚ
  m5_rate : ℚ
  m15_rate : ℚ
  deriving Repr, DecidableEq

/-- Modelled from the spec: a fresh meter with zero events.  The wall-clock
creation timestamp only seeds the tick bookkeeping, which the model carries
abstractly. -/
def Meter.new (_startTime : Nat) : Meter :=
  { count := 0, markTimes := [], m1_rate := 0, m5_rate := 0, m15_rate := 0 }

/-- Modelled from the spec: mark records one event at the given instant and
increments the exact total count by one. -/
def Meter.mark (m : Meter) (now : Instant) : Meter :=
  { m with count := m.count + 1, markTimes := m.markTimes ++ [now] }

/-- Modelled from the spec: the Histogram source file is not under src/.  Per
the spec, update inserts one observation (a u64 value); the model keeps the
full sequence of inserted observations.  Reservoir eviction only affects
quantile approximation, which no claim's truth depends on, so the model
retains every observation. -/
structure Histogram where
  values : List Nat
  deriving Repr, DecidableEq

/-- Modelled from the spec: a fresh histogram with no observations. -/
def Histogram.new : Histogram := { values := [] }

/-- Modelled from the spec: update inserts one observation. -/
def Histogram.update (h : Histogram) (v : Nat) : Histogram :=
  { values := h.values ++ [v] }

/-- Modelled from the spec: an immutable sorted copy of the histogram's
retained values at one moment. -/
structure HistogramSnapshot where
  values : List Nat
  deriving Repr, DecidableEq

/-- Modelled from the spec: snapshot construction copies the values out,
sorted. -/
def Histogram.snapshot (h : Histogram) : HistogramSnapshot :=
  { values := h.values.mergeSort (fun a b => decide (a ≤ b)) }

/-- Number of samples in a snapshot. -/
def HistogramSnapshot.count (s : HistogramSnapshot) : Nat :=
  s.values.length

/-- Modelled from the spec: exact minimum, with sentinel 0 on an empty
distribution. -/
def HistogramSnapshot.min (s : HistogramSnapshot) : Nat :=
  match s.values with
  | [] => 0
  | v :: vs => vs.foldl Nat.min v

/-- Modelled from the spec: exact maximum, with sentinel 0 on an empty
distribution. -/
def HistogramSnapshot.max (s : HistogramSnapshot) : Nat :=
  match s.values with
  | [] => 0
  | v :: vs => vs.foldl Nat.max v

/-- Modelled from the spec: exact mean, with sentinel 0 on an empty
distribution. -/
def HistogramSnapshot.mean (s : HistogramSnapshot) : ℚ :=
  if s.values.length = 0 then 0
  else ((s.values.map (fun v => (v : ℚ))).sum) / (s.values.length : ℚ)

/-- Modelled from the spec: exact population variance, with sentinel 0 on an
empty distribution. -/
def HistogramSnapshot.variance (s : HistogramSnapshot) : ℚ :=
  if s.values.length = 0 then 0
  else ((s.values.map (fun v => ((v : ℚ)) ^ 2)).sum) / (s.values.length : ℚ)
        - s.mean ^ 2

/-- Modelled from the spec: standard deviation, the square root of the exact
variance. -/
noncomputable def HistogramSnapshot.stddev (s : HistogramSnapshot) : ℝ :=
  Real.sqrt (s.variance : ℝ)

/-- Modelled from the spec: quantile by linear interpolation at rank
q * (n - 1) over the sorted snapshot values, with sentinel 0 on an empty
distribution. -/
def HistogramSnapshot.quantile (s : HistogramSnapshot) (q : ℚ) : ℚ :=
  let n := s.values.length
  if n = 0 then 0
  else
    let pos : ℚ := q * ((n : ℚ) - 1)
    let lo : Nat := pos.floor.toNat
    let hi : Nat := Nat.min (lo + 1) (n - 1)
    let frac : ℚ := pos - (pos.floor : ℚ)
    (1 - frac) * ((s.values.getD lo 0 : ℚ)) + frac * ((s.values.getD hi 0 : ℚ))

/-- Timers are a combination of a Histogram and a Meter (timer.rs, struct
Timer): a rate meter and a latency histogram. -/
structure Timer where
  rate : Meter
  latency : Histogram
  deriving Repr, DecidableEq

/-- Timer::new composes a fresh meter (seeded with the wall-clock creation
time) and a fresh histogram. -/
def Timer.new (startTime : Nat) : Timer :=
  { rate := Meter.new startTime, latency := Histogram.new }

/-- A scoped timer context (timer.rs, struct TimerContext): it stores the
session's start instant.  The Rust value also borrows the timer; the model
threads the timer state explicitly through each operation instead. -/
structure TimerContext where
  start_at : Instant
  deriving Repr, DecidableEq

/-- A detached timer context (timer.rs, struct TimerContextArc): it stores the
session's start instant and shares ownership of the timer, which the model
threads explicitly. -/
structure TimerContextArc where
  start_at : Instant
  deriving Repr, DecidableEq

/-- Duration::as_millis on a nanosecond count. -/
def durationAsMillis (nanos : Nat) : Nat := nanos / 1000000

/-- The Rust cast from u128 to u64: reduction modulo 2^64. -/
def asU64 (n : Nat) : Nat := n % 2 ^ 64

/-- The latency value a completion records: the saturating difference of the
completion instant and the session's start instant, in whole milliseconds,
cast to u64. -/
def elapsedMillisU64 (start_at now : Instant) : Nat :=
  asU64 (durationAsMillis (now - start_at))

/-- Timer::start_at: marks the rate meter at the instant the call observes
from Instant::now, and returns a context carrying the supplied start instant.
The argument s is the Rust start_at parameter; now is the instant
Instant::now() yields inside the call. -/
def Timer.start_at (tm : Timer) (s : Instant) (now : Instant) :
    Timer × TimerContext :=
  ({ tm with rate := tm.rate.mark now }, { start_at := s })

/-- Timer::start: calls start_at with Instant::now().  now1 is the instant
obtained by start itself and passed as the start instant; now2 is the instant
the inner mark observes. -/
def Timer.start (tm : Timer) (now1 : Instant) (now2 : Instant) :
    Timer × TimerContext :=
  tm.start_at now1 now2

/-- TimerContext::stop: records the elapsed wall time since the session's
start instant, in milliseconds cast to u64, into the latency histogram.  now
is the instant Instant::now() yields inside the call. -/
def TimerContext.stop (ctx : TimerContext) (tm : Timer) (now : Instant) :
    Timer :=
  { tm with latency := tm.latency.update (elapsedMillisU64 ctx.start_at now) }

/-- The Drop impl for TimerContext calls self.stop(); it runs when the
context's scope ends, on every exit path. -/
def TimerContext.dropCtx (ctx : TimerContext) (tm : Timer) (now : Instant) :
    Timer :=
  ctx.stop tm now

/-- TimerContextArc::start_at: marks the rate meter at the instant the call
observes from Instant::now, and returns a detached context carrying the
supplied start instant.  Named startAt because the struct already has a field
named start_at. -/
def TimerContextArc.startAt (tm : Timer) (s : Instant) (now : Instant) :
    Timer × TimerContextArc :=
  ({ tm with rate := tm.rate.mark now }, { start_at := s })

/-- TimerContextArc::start: calls TimerContextArc::start_at with
Instant::now(). -/
def TimerContextArc.start (tm : Timer) (now1 : Instant) (now2 : Instant) :
    Timer × TimerContextArc :=
  TimerContextArc.startAt tm now1 now2

/-- TimerContextArc::stop: records the elapsed wall time since the session's
start instant, in milliseconds cast to u64, into the latency histogram. -/
def TimerContextArc.stop (ctx : TimerContextArc) (tm : Timer) (now : Instant) :
    Timer :=
  { tm with latency := tm.latency.update (elapsedMillisU64 ctx.start_at now) }

/-- TimerContextArc has no Drop impl in timer.rs: dropping it only releases
the Arc reference and leaves the timer unchanged. -/
def TimerContextArc.dropCtx (_ctx : TimerContextArc) (tm : Timer) : Timer :=
  tm

/-- Timer::scoped: starts a context, runs the closure, stops the context, and
returns the closure's result; the context is then dropped at the end of the
function body.  The closure is modelled in state-passing form so that how
often it runs is observable.  nStart1 and nStart2 are the instants the inner
start observes, tStop the instant of the explicit stop, tDrop the instant of
the context's end-of-scope drop. -/
def Timer.scoped {σ R : Type} (tm : Timer) (f : σ → σ × R) (st : σ)
    (nStart1 nStart2 tStop tDrop : Instant) : Timer × σ × R :=
  let p := tm.start nStart1 nStart2
  let fr := f st
  let tm2 := p.2.stop p.1 tStop
  let tm3 := p.2.dropCtx tm2 tDrop
  (tm3, fr.1, fr.2)

/-- Calling TimerContext::stop once at each instant of a list, in order,
threading the timer state. -/
def TimerContext.stopMany (ctx : TimerContext) (tm : Timer)
    (ts : List Instant) : Timer :=
  ts.foldl (fun acc t => ctx.stop acc t) tm

/-- A serialized numeric field value: u64 fields stay natural numbers, f64
fields are modelled as reals. -/
inductive JVal where
  | nat : Nat → JVal
  | real : ℝ → JVal

/-- The Serialize impl for Timer (timer.rs): a map of 13 entries, in source
order, drawing count and the three rates from the rate meter and the
distribution fields from one snapshot of the latency histogram. -/
noncomputable def serializeTimer (tm : Timer) : List (String × JVal) :=
  let rate := tm.rate
  let latency := tm.latency.snapshot
  [("count", JVal.nat rate.count),
   ("m1_rate", JVal.real (rate.m1_rate : ℝ)),
   ("m5_rate", JVal.real (rate.m5_rate : ℝ)),
   ("m15_rate", JVal.real (rate.m15_rate : ℝ)),
   ("mean", JVal.real (latency.mean : ℝ)),
   ("max", JVal.nat latency.max),
   ("min", JVal.nat latency.min),
   ("stddev", JVal.real latency.stddev),
   ("p50", JVal.real (latency.quantile (1 / 2) : ℝ)),
   ("p75", JVal.real (latency.quantile (3 / 4) : ℝ)),
   ("p90", JVal.real (latency.quantile (9 / 10) : ℝ)),
   ("p99", JVal.real (latency.quantile (99 / 100) : ℝ)),
   ("p999", JVal.real (latency.quantile (999 / 1000) : ℝ))]

/-- Modelled from the spec: MetricsRegistry is not under src/; for identity of
instances only a creation identifier is needed. -/
structure MetricsRegistry where
  id : Nat
  deriving Repr, DecidableEq

/-- Modelled from the spec: MetricsRegistry::arc allocates a fresh registry
instance; the argument is the fresh identifier the allocation receives. -/
def MetricsRegistry.arc (n : Nat) : MetricsRegistry := { id := n }

/-- The state of the one-time-initialization cell backing global_registry
(global.rs, static GLOBAL_REGISTRY): the cell's contents, plus a counter
supplying fresh instance identifiers to allocations. -/
structure GlobalState where
  cell : Option MetricsRegistry
  nextId : Nat
  deriving Repr, DecidableEq

/-- The cell before any call: empty, no instance allocated yet. -/
def GlobalState.init : GlobalState := { cell := none, nextId := 0 }

/-- global_registry (global.rs): get_or_init on the one-time cell.  Modelled
from the spec for the one-time-initialization primitive, which linearizes
concurrent calls: an empty cell allocates via MetricsRegistry::arc and stores
the instance; a filled cell returns the stored instance, and every caller
receives a handle to the cell's single instance. -/
def global_registry : GlobalState → GlobalState × MetricsRegistry
  | { cell := none, nextId := n } =>
      ({ cell := some (MetricsRegistry.arc n), nextId := n + 1 },
       MetricsRegistry.arc n)
  | { cell := some r, nextId := n } =>
      ({ cell := some r, nextId := n }, r)

/-- The linearized trace of k successive calls to global_registry starting
from the initial state: the final cell state and the list of returned
handles. -/
def globalCalls : Nat → GlobalState × List MetricsRegistry
  | 0 => (GlobalState.init, [])
  | k + 1 =>
      let p := globalCalls k
      let q := global_registry p.1
      (q.1, p.2 ++ [q.2])

/-- Helper: stopping a context once at each instant of a list appends one
latency sample per call, in order, and leaves the rate meter unchanged. -/
lemma stopMany_effect (ctx : TimerContext) (tm : Timer) (ts : List Instant) :
    (ctx.stopMany tm ts).latency.values
        = tm.latency.values ++ ts.map (fun t => elapsedMillisU64 ctx.start_at t) ∧
    (ctx.stopMany tm ts).rate = tm.rate := by
  induction ts generalizing tm with
  | nil => simp [TimerContext.stopMany]
  | cons t rest ih =>
      have h := ih (ctx.stop tm t)
      have hs : TimerContext.stopMany ctx tm (t :: rest)
          = TimerContext.stopMany ctx (ctx.stop tm t) rest := rfl
      constructor
      · rw [hs, h.1]
        simp [TimerContext.stop, Histogram.update]
      · rw [hs, h.2]
        rfl

/-- Claim C2: a scoped timer session that is started and never explicitly
completed records exactly one latency sample when its scope ends and the
context is dropped. -/
theorem timer_drop_without_stop_records_one_sample (tm : Timer)
    (s n tDrop : Instant) :
    ((tm.start_at s n).2.dropCtx (tm.start_at s n).1 tDrop).latency.values
        = tm.latency.values ++ [elapsedMillisU64 s tDrop] ∧
    ((tm.start_at s n).2.dropCtx (tm.start_at s n).1 tDrop).latency.values.length
        = tm.latency.values.length + 1 ∧
    ((tm.start s n).2.dropCtx (tm.start s n).1 tDrop).latency.values
        = tm.latency.values ++ [elapsedMillisU64 s tDrop] :=
  ⟨rfl, by simp [Timer.start_at, TimerContext.dropCtx, TimerContext.stop,
                 Histogram.update, Meter.mark], rfl⟩

/-- Claim C1 counterexample: a session on a fresh timer, started at instant 0
and explicitly stopped exactly once at 5ms, records a second latency sample
when its scope ends at 7ms, so the whole lifetime adds two samples, not
exactly one. -/
theorem timer_stop_once_claim_counterexample :
    (((Timer.new 0).start_at 0 0).2.dropCtx
        (((Timer.new 0).start_at 0 0).2.stop ((Timer.new 0).start_at 0 0).1
          5000000) 7000000).latency.values = [5, 7] ∧
    ¬ ((((Timer.new 0).start_at 0 0).2.dropCtx
        (((Timer.new 0).start_at 0 0).2.stop ((Timer.new 0).start_at 0 0).1
          5000000) 7000000).latency.values.length = 1) ∧
    (((Timer.new 0).start_at 0 0).2.dropCtx
        (((Timer.new 0).start_at 0 0).2.stop ((Timer.new 0).start_at 0 0).1
          5000000) 7000000).rate.count = 1 := by
  decide

/-- Claim C1 (amended): a scoped timer session that is started and explicitly
completed exactly once before its scope ends increments the rate meter count
by exactly 1, and over the whole lifetime of the session exactly two latency
samples are added (each a u64 value, hence nonnegative): one at the explicit
stop and one more at the end-of-scope destruction. -/
theorem timer_stop_once_then_drop_effect (tm : Timer)
    (s n tStop tDrop : Instant) :
    ((tm.start_at s n).2.dropCtx
        ((tm.start_at s n).2.stop (tm.start_at s n).1 tStop) tDrop).rate.count
        = tm.rate.count + 1 ∧
    ((tm.start_at s n).2.dropCtx
        ((tm.start_at s n).2.stop (tm.start_at s n).1 tStop) tDrop).latency.values
        = tm.latency.values
            ++ [elapsedMillisU64 s tStop, elapsedMillisU64 s tDrop] := by
  constructor
  · rfl
  · simp [Timer.start_at, TimerContext.dropCtx, TimerContext.stop,
          Histogram.update]

/-- Claim C3: a detached timer session increments the rate meter count by
exactly 1 at creation, and dropping it without an explicit stop records
nothing: the timer is left exactly as it was after the start, so on a fresh
timer the latency histogram stays at 0 samples while the count is 1. -/
theorem timer_detached_drop_records_nothing (tm : Timer) (t0 s n : Instant) :
    (TimerContextArc.startAt tm s n).1.rate.count = tm.rate.count + 1 ∧
    (TimerContextArc.startAt tm s n).2.dropCtx (TimerContextArc.startAt tm s n).1
        = (TimerContextArc.startAt tm s n).1 ∧
    ((TimerContextArc.startAt (Timer.new t0) s n).2.dropCtx
        (TimerContextArc.startAt (Timer.new t0) s n).1).latency.values.length = 0 ∧
    ((TimerContextArc.startAt (Timer.new t0) s n).2.dropCtx
        (TimerContextArc.startAt (Timer.new t0) s n).1).rate.count = 1 ∧
    TimerContextArc.start tm s n = TimerContextArc.startAt tm s n :=
  ⟨rfl, rfl, rfl, rfl, rfl⟩

/-- Claim C4: Timer::scoped runs the closure exactly once (the returned
closure state and result are exactly those of one application of f), marks
the rate meter, records the duration of the run as a latency sample, and
returns exactly the value produced by f.  The context's own end-of-scope drop
inside scoped appends one further sample. -/
theorem timer_scoped_runs_once_and_records {σ R : Type} (tm : Timer)
    (f : σ → σ × R) (st : σ) (n1 n2 tStop tDrop : Instant) :
    (tm.scoped f st n1 n2 tStop tDrop).2 = f st ∧
    (tm.scoped f st n1 n2 tStop tDrop).1.rate.count = tm.rate.count + 1 ∧
    (tm.scoped f st n1 n2 tStop tDrop).1.latency.values
        = tm.latency.values
            ++ [elapsedMillisU64 n1 tStop, elapsedMillisU64 n1 tDrop] := by
  refine ⟨rfl, rfl, ?_⟩
  simp [Timer.scoped, Timer.start, Timer.start_at, TimerContext.stop,
        TimerContext.dropCtx, Histogram.update]

/-- Claim C5: serializing a Timer produces a map of exactly the 13 keys
count, m1_rate, m5_rate, m15_rate, mean, max, min, stddev, p50, p75, p90,
p99, p999 in that order, with count and the rates drawn from the rate meter
and the p fields equal to quantile 0.5, 0.75, 0.9, 0.99, 0.999 of one
snapshot of the latency histogram. -/
theorem timer_serialize_key_order_and_fields (tm : Timer) :
    (serializeTimer tm).map Prod.fst
        = ["count", "m1_rate", "m5_rate", "m15_rate", "mean", "max", "min",
           "stddev", "p50", "p75", "p90", "p99", "p999"] ∧
    (serializeTimer tm).length = 13 ∧
    serializeTimer tm
        = [("count", JVal.nat tm.rate.count),
           ("m1_rate", JVal.real (tm.rate.m1_rate : ℝ)),
           ("m5_rate", JVal.real (tm.rate.m5_rate : ℝ)),
           ("m15_rate", JVal.real (tm.rate.m15_rate : ℝ)),
           ("mean", JVal.real (tm.latency.snapshot.mean : ℝ)),
           ("max", JVal.nat tm.latency.snapshot.max),
           ("min", JVal.nat tm.latency.snapshot.min),
           ("stddev", JVal.real tm.latency.snapshot.stddev),
           ("p50", JVal.real (tm.latency.snapshot.quantile (1 / 2) : ℝ)),
           ("p75", JVal.real (tm.latency.snapshot.quantile (3 / 4) : ℝ)),
           ("p90", JVal.real (tm.latency.snapshot.quantile (9 / 10) : ℝ)),
           ("p99", JVal.real (tm.latency.snapshot.quantile (99 / 100) : ℝ)),
           ("p999", JVal.real (tm.latency.snapshot.quantile (999 / 1000) : ℝ))] :=
  ⟨rfl, rfl, rfl⟩

/-- Claim C6: starting a session, by any of the four start operations,
mutates only the rate meter and leaves the latency histogram unchanged
(while incrementing the meter count), and completing a session, by either
stop, mutates only the latency histogram and leaves the rate meter, hence
its count, unchanged. -/
theorem timer_frame_effects (tm : Timer) (s now c : Instant)
    (ctx : TimerContext) (ctxA : TimerContextArc) :
    (tm.start_at s now).1.latency = tm.latency ∧
    (tm.start s now).1.latency = tm.latency ∧
    (TimerContextArc.startAt tm s now).1.latency = tm.latency ∧
    (TimerContextArc.start tm s now).1.latency = tm.latency ∧
    (tm.start_at s now).1.rate.count = tm.rate.count + 1 ∧
    (ctx.stop tm c).rate = tm.rate ∧
    (ctx.stop tm c).rate.count = tm.rate.count ∧
    (ctxA.stop tm c).rate = tm.rate ∧
    (ctxA.stop tm c).rate.count = tm.rate.count :=
  ⟨rfl, rfl, rfl, rfl, rfl, rfl, rfl, rfl, rfl⟩

/-- Claim C8: each completion call, on a scoped or a detached session,
records into the latency histogram the saturating wall-time difference from
the session's start instant to the completion instant, in whole milliseconds,
cast to u64. -/
theorem timer_stop_records_elapsed_millis (tm : Timer) (now : Instant)
    (ctx : TimerContext) (ctxA : TimerContextArc) :
    (ctx.stop tm now).latency.values
        = tm.latency.values ++ [asU64 (durationAsMillis (now - ctx.start_at))] ∧
    (ctxA.stop tm now).latency.values
        = tm.latency.values ++ [asU64 (durationAsMillis (now - ctxA.start_at))] :=
  ⟨rfl, rfl⟩

/-- Claim C9: TimerContext::stop is not one-shot: each explicit stop call
appends one latency sample and the end-of-scope drop appends one more
unconditionally, so a session stopped at each instant of an arbitrary list ts
and then dropped records ts.length + 1 samples in total. -/
theorem timer_context_stop_not_one_shot (tm : Timer) (s n tDrop : Instant)
    (ts : List Instant) :
    ((tm.start_at s n).2.dropCtx
        ((tm.start_at s n).2.stopMany (tm.start_at s n).1 ts)
        tDrop).latency.values.length
      = tm.latency.values.length + ts.length + 1 := by
  have h := stopMany_effect (tm.start_at s n).2 (tm.start_at s n).1 ts
  have hd : ((tm.start_at s n).2.dropCtx
        ((tm.start_at s n).2.stopMany (tm.start_at s n).1 ts) tDrop).latency.values
      = ((tm.start_at s n).2.stopMany (tm.start_at s n).1 ts).latency.values
          ++ [elapsedMillisU64 s tDrop] := rfl
  rw [hd, h.1]
  simp [Timer.start_at]
  omega

/-- Claim C10: Timer::start_at and TimerContextArc::start_at mark the rate
meter at the instant the call observes from the clock, not at the supplied
start instant t; the supplied instant is stored in the context and used only
as the starting point of the latency measurement taken at completion. -/
theorem timer_start_at_marks_call_instant (tm : Timer) (t now c : Instant) :
    (tm.start_at t now).1.rate.markTimes = tm.rate.markTimes ++ [now] ∧
    (tm.start_at t now).2.start_at = t ∧
    (TimerContextArc.startAt tm t now).1.rate.markTimes
        = tm.rate.markTimes ++ [now] ∧
    (TimerContextArc.startAt tm t now).2.start_at = t ∧
    ((tm.start_at t now).2.stop (tm.start_at t now).1 c).latency.values
        = (tm.start_at t now).1.latency.values ++ [elapsedMillisU64 t c] ∧
    ((TimerContextArc.startAt tm t now).2.stop
        (TimerContextArc.startAt tm t now).1 c).latency.values
        = (TimerContextArc.startAt tm t now).1.latency.values
            ++ [elapsedMillisU64 t c] :=
  ⟨rfl, rfl, rfl, rfl, rfl, rfl⟩

/-- Helper: the closed form of the call trace of global_registry: after at
least one call the cell holds the single instance with identifier 0, the
fresh-identifier counter stands at 1, and every call so far returned that
same instance. -/
lemma globalCalls_closed (k : Nat) :
    globalCalls (k + 1)
      = ({ cell := some (MetricsRegistry.arc 0), nextId := 1 },
         List.replicate (k + 1) (MetricsRegistry.arc 0)) := by
  induction k with
  | zero => rfl
  | succ n ih =>
      have hs : globalCalls (n + 1 + 1)
          = ((global_registry (globalCalls (n + 1)).1).1,
             (globalCalls (n + 1)).2
               ++ [(global_registry (globalCalls (n + 1)).1).2]) := rfl
      rw [hs, ih]
      simp [global_registry, List.replicate_succ']

/-- Claim C7: the singleton accessor constructs the registry exactly once
over any linearized sequence of calls (the fresh-identifier counter never
passes 1), and every call returns a handle to the identical instance, the one
with identifier 0. -/
theorem global_registry_single_instance (k : Nat) :
    (globalCalls k).2 = List.replicate k (MetricsRegistry.arc 0) ∧
    (globalCalls k).1.nextId ≤ 1 ∧
    (globalCalls (k + 1)).1
      = { cell := some (MetricsRegistry.arc 0), nextId := 1 } := by
  refine ⟨?_, ?_, ?_⟩
  · cases k with
    | zero => rfl
    | succ n => exact congrArg Prod.snd (globalCalls_closed n)
  · cases k with
    | zero => decide
    | succ n => rw [congrArg Prod.fst (globalCalls_closed n)]
  · exact congrArg Prod.fst (globalCalls_closed k)
